import Mathlib

/-!
# Verification of the SAUVW dashboard's structure-locator logic

Shallow embedding of the decision-making logic of `SAUVW_DB.py`:
column detection (`get_material_id_column`, `get_cif_available_mask`),
the eligible-identifier list (`available_materials`), CIF path
resolution and the two-tier renderer fallback of the view-button
handler, and the page-level error-handling flow.

Tables are modelled as a list of column names plus a list of rows; a
cell is `Option String`, where `none` stands for a missing value (NaN),
which pandas stringifies to `"nan"` under `astype(str)`.  External
collaborators (the filesystem, the structure parser and the two
renderers) are parameters of the model, as the spec treats them as
black boxes.
-/

set_option autoImplicit false

namespace SAUVW

/-- A cell of the composition table: `none` models a missing value (NaN). -/
abbrev Cell := Option String

/-- A row: association list from column name to cell value. -/
abbrev Row := List (String × Cell)

/-- Look a column up in a row; an absent column reads as a missing value. -/
def Row.getCell (r : Row) (c : String) : Cell :=
  match r.find? (fun p => p.1 == c) with
  | some p => p.2
  | none => none

/-- A dataframe: ordered column names and ordered rows. -/
structure DataFrame where
  cols : List String
  rows : List Row
deriving Repr

/-- Lower-case one character (ASCII range; models Python `str.lower` on the
identifiers and flags this table uses). -/
def lowerChar (c : Char) : Char :=
  if c.isUpper then Char.ofNat (c.toNat + 32) else c

/-- Python `str.lower` (ASCII model). -/
def strLower (s : String) : String :=
  ⟨s.data.map lowerChar⟩

/-- Whitespace as stripped by Python `str.strip`. -/
def isWS (c : Char) : Bool :=
  c == ' ' || c == '\t' || c == '\n' || c == '\r'

/-- Python `str.strip` (whitespace model). -/
def strStrip (s : String) : String :=
  ⟨((s.data.dropWhile isWS).reverse.dropWhile isWS).reverse⟩

/-- `pat` occurs as a substring of `text` (Python's `in` on strings). -/
def strContains (text pat : String) : Bool :=
  (List.range (text.length + 1)).any (fun i => pat.data.isPrefixOf (text.data.drop i))

/-- Pandas `astype(str)` on a cell: NaN stringifies to `"nan"`. -/
def astype_str (c : Cell) : String :=
  match c with
  | none => "nan"
  | some s => s

/-- The ordered alias list of `get_material_id_column` in `SAUVW_DB.py`. -/
def materialIdCandidates : List String :=
  ["Material-ID", "Material_ID", "material-id", "material_id", "materialid",
   "MaterialID", "Material Id"]

/-- `get_material_id_column` (SAUVW_DB.py lines 136-146): first alias present
among the columns, else the first column whose lower-cased name contains both
"material" and "id", else `none`. -/
def get_material_id_column (df : DataFrame) : Option String :=
  match materialIdCandidates.find? (fun c => df.cols.contains c) with
  | some c => some c
  | none =>
      df.cols.find? (fun c => strContains (strLower c) "material" && strContains (strLower c) "id")

/-- The ordered alias list of `get_cif_available_mask` in `SAUVW_DB.py`. -/
def cifCandidates : List String :=
  ["cif_available", "cif available", "cif", "has_cif", "cif_available?"]

/-- The column-detection part of `get_cif_available_mask` (lines 152-163):
first alias present among the columns, else the first column whose lower-cased
name contains "cif", else `none`. -/
def get_cif_col (df : DataFrame) : Option String :=
  match cifCandidates.find? (fun c => df.cols.contains c) with
  | some c => some c
  | none => df.cols.find? (fun c => strContains (strLower c) "cif")

/-- `get_cif_available_mask` (lines 149-168): per-row boolean mask, true where
the detected availability column's value, stringified, stripped and
lower-cased, equals "yes"; all false when no column is detected. -/
def get_cif_available_mask (df : DataFrame) : List Bool :=
  match get_cif_col df with
  | none => df.rows.map (fun _ => false)
  | some col => df.rows.map (fun r => strLower (strStrip (astype_str (r.getCell col))) == "yes")

/-- `available_materials` (lines 171-180): identifier-column values, coerced
to text, of the rows selected by the availability mask; empty when the
identifier column is not detected. -/
def available_materials (df : DataFrame) : List String :=
  match get_material_id_column df with
  | none => []
  | some idcol =>
      ((df.rows.zip (get_cif_available_mask df)).filter (fun p => p.2)).map
        (fun p => astype_str (p.1.getCell idcol))

/-! ### Path resolution and the view-button handler (lines 185-278) -/

/-- One observable UI event emitted by the page. -/
inductive Msg
  | success (s : String)
  | errorMsg (s : String)
  | warning (s : String)
  | infoMsg (s : String)
  | writeMsg (s : String)
  | tableShown (name : String)
  | htmlOut (s : String)
deriving Repr, DecidableEq

/-- `m` is embedded renderer markup (an `st.components.v1.html` call). -/
def Msg.isHtml : Msg → Bool
  | .htmlOut _ => true
  | _ => false

/-- `CIF_DIR` (line 53). -/
def cifDir : String := "crystal_structure"

/-- The primary candidate path `CIF_DIR / (matid ++ ".cif")` (line 198). -/
def cifPath (matid : String) : String :=
  cifDir ++ "/" ++ matid ++ ".cif"

/-- Python `matid.replace(' ', '_')` (line 201). -/
def underscoreSpaces (s : String) : String :=
  ⟨s.data.map (fun c => if c == ' ' then '_' else c)⟩

def foundMsg (p : String) : String :=
  "Found CIF: " ++ p

def notFoundMsg (matid : String) : String :=
  "CIF file not found at " ++ cifPath matid ++
  ". Ensure CIF is present at crystal_structure/" ++ matid ++ ".cif"

def ctkFailNote (e : String) : String :=
  "Crystal Toolkit rendering failed or API mismatch: " ++ e

def py3dmolAlsoFailedMsg (e : String) : String :=
  "py3Dmol fallback also failed: " ++ e

def py3dmolNotInstalledMsg : String :=
  "py3Dmol not installed; please install py3Dmol or crystal-toolkit to visualize structures."

def py3dmolFailedMsg (e : String) : String :=
  "py3Dmol rendering failed: " ++ e

def neitherInstalledMsg : String :=
  "Neither crystal-toolkit nor py3Dmol is installed in this environment. " ++
  "Install crystal-toolkit for the primary viewer or py3Dmol as fallback."

/-- The external collaborators of the view-button handler: the filesystem and
the two renderer pathways, each a black box that yields markup or throws. -/
structure RenderEnv where
  fsExists : String → Bool
  ctkAvailable : Bool
  py3dmolAvailable : Bool
  primary : String → Except String String
  fallback : String → Except String String

/-- The renderer chain of the view-button handler (lines 209-278): Crystal
Toolkit pathway first when importable; on any exception, an informational
note and the py3Dmol pathway on the same path; each failure mode surfaces
one error message. -/
def render_chain (env : RenderEnv) (path : String) : List Msg :=
  if env.ctkAvailable then
    match env.primary path with
    | .ok html => [Msg.htmlOut html]
    | .error e =>
        Msg.writeMsg (ctkFailNote e) ::
        (if env.py3dmolAvailable then
          match env.fallback path with
          | .ok html => [Msg.htmlOut html]
          | .error e2 => [Msg.errorMsg (py3dmolAlsoFailedMsg e2)]
        else [Msg.errorMsg py3dmolNotInstalledMsg])
  else
    if env.py3dmolAvailable then
      match env.fallback path with
      | .ok html => [Msg.htmlOut html]
      | .error e => [Msg.errorMsg (py3dmolFailedMsg e)]
    else [Msg.errorMsg neitherInstalledMsg]

/-- The view-button handler (lines 194-278): build the primary CIF path; if
absent, fall back to the space-to-underscore variant; render when a path
exists, otherwise report a non-fatal error message. -/
def view_structure (env : RenderEnv) (chosen : String) : List Msg :=
  let matid := chosen
  let p := cifPath matid
  if env.fsExists p then
    Msg.success (foundMsg p) :: render_chain env p
  else
    let alt := cifPath (underscoreSpaces matid)
    if env.fsExists alt then render_chain env alt
    else [Msg.errorMsg (notFoundMsg matid)]

/-- Path resolution stated from the spec's words (section 4.2 item 4):
return the primary `base_dir/<identifier>.cif` if it exists, else the
variant with every space replaced by an underscore if that exists, else
nothing. -/
def resolvePath (fs : String → Bool) (matid : String) : Option String :=
  if fs (cifPath matid) then some (cifPath matid)
  else if fs (cifPath (underscoreSpaces matid)) then
    some (cifPath (underscoreSpaces matid))
  else none

/-- Row eligibility stated from the spec's words (section 3 invariant): the
detected availability column's value trims and lower-cases to "yes"; no
discoverable availability column means no row is eligible. -/
def specEligible (df : DataFrame) (r : Row) : Bool :=
  match get_cif_col df with
  | none => false
  | some col => strLower (strStrip (astype_str (r.getCell col))) == "yes"

/-! ### Page-level flow (the whole script, once per render) -/

def pymatgenRequiredMsg : String :=
  "pymatgen is required for structure parsing. Install with pip install pymatgen."

def csvMissingMsg (name : String) : String :=
  name ++ " not found in repo root. Place it in the same folder as this app."

def csvFailedMsg (name : String) (e : String) : String :=
  "Failed to load " ++ name ++ ": " ++ e

def idNotDetectedMsg : String :=
  "Material ID column not detected automatically. " ++
  "Please ensure there is a column like Material-ID."

def noCifsMsg : String :=
  "No CIFs detected in the table (or cif_available != yes). " ++
  "Ensure crystal_structure/<material-id>.cif exists and cif_available column is yes."

/-- The whole environment a page render runs against: import outcomes, the
two CSV loads (absent file / parse failure / parsed table), the render
collaborators, and the user's interaction with the viewer controls. -/
structure AppEnv where
  pymatgenAvailable : Bool
  csLoad : Option (Except String DataFrame)
  benchLoad : Option (Except String DataFrame)
  render : RenderEnv
  viewClicked : Bool
  chosenIdx : Nat

/-- One CSV-loading block (lines 109-117 and 121-129): a missing file is a
warning, a parse failure is an error, success displays the table. -/
def loadCsv (load : Option (Except String DataFrame)) (name : String) :
    List Msg × Option DataFrame :=
  match load with
  | none => ([Msg.warning (csvMissingMsg name)], none)
  | some (.error e) => ([Msg.errorMsg (csvFailedMsg name e)], none)
  | some (.ok df) => ([Msg.tableShown name], some df)

/-- Lines 171-180: detect columns on the loaded composition table; an
undetected identifier column is a warning and leaves the list empty. -/
def locate_section (dcs : Option DataFrame) : List Msg × List String :=
  match dcs with
  | none => ([], [])
  | some df =>
      if (get_material_id_column df).isNone then
        ([Msg.warning idNotDetectedMsg], [])
      else ([], available_materials df)

/-- Lines 185-278: the viewer block; an empty eligible list shows an info
banner, otherwise the selection is constrained to the eligible list and the
button click runs the view handler. -/
def viewer_section (env : AppEnv) (avail : List String) : List Msg :=
  if avail.isEmpty then [Msg.infoMsg noCifsMsg]
  else
    let chosen := avail.getD (min env.chosenIdx (avail.length - 1)) ""
    if env.viewClicked then view_structure env.render chosen else []

/-- One page render, whole script: `Except.error` models an exception
escaping the script (the page run terminates after the messages shown so
far), `Except.ok` a completed page.  The pymatgen import guard (lines
17-21) emits an error message and then re-raises. -/
def runApp (env : AppEnv) : Except (List Msg) (List Msg) :=
  if env.pymatgenAvailable then
    let r1 := loadCsv env.csLoad "SAUVW_full_crysdata.csv"
    let r2 := loadCsv env.benchLoad "SAUVW_Benchmark.csv"
    let r3 := locate_section r1.2
    let m4 := viewer_section env r3.2
    .ok (r1.1 ++ r2.1 ++ r3.1 ++ m4)
  else .error [Msg.errorMsg pymatgenRequiredMsg]

/-! ### Spec-side restatements (for refinement claims) -/

/-- Identifier-column detection stated from the spec's words (section 4.2
item 1 and section 9): the ordered exact-match candidates give the first
hit, else the single substring predicate gives the first hit, else none. -/
def specIdDetect (df : DataFrame) : Option String :=
  match (materialIdCandidates.filter (fun a => df.cols.contains a)).head? with
  | some a => some a
  | none =>
      (df.cols.filter
        (fun c => strContains (strLower c) "material" && strContains (strLower c) "id")).head?

/-- Availability-column detection stated from the spec's words (section 4.2
item 2): exact aliases first, then the first column containing "cif". -/
def specCifDetect (df : DataFrame) : Option String :=
  match (cifCandidates.filter (fun a => df.cols.contains a)).head? with
  | some a => some a
  | none => (df.cols.filter (fun c => strContains (strLower c) "cif")).head?

/-- The page render completed (no exception escaped the script). -/
def isOkB {ε α : Type} : Except ε α → Bool
  | .ok _ => true
  | .error _ => false

/-! ### Concrete fixtures used by the witness theorems -/

/-- A table whose only column is an identifier alias (no cif column). -/
def DA : DataFrame := ⟨["Material-ID"], [[("Material-ID", some "A")]]⟩

/-- A table exercising the spec's availability test values, with a duplicate
identifier among the eligible rows. -/
def DB : DataFrame :=
  ⟨["Material-ID", "cif_available"],
   [[("Material-ID", some "A"), ("cif_available", some "Yes")],
    [("Material-ID", some "B"), ("cif_available", some "no")],
    [("Material-ID", some "A"), ("cif_available", some " yes ")],
    [("Material-ID", some "D"), ("cif_available", none)],
    [("Material-ID", some "E"), ("cif_available", some "")]]⟩

/-- A table with no cif-like column but a "yes" value elsewhere. -/
def D3 : DataFrame := ⟨["temp"], [[("temp", some "x")], [("temp", some "yes")]]⟩

/-- A table with no identifier-like column. -/
def D9 : DataFrame := ⟨["Name", "Tc"], [[("Name", some "x")]]⟩

/-- A table whose availability cell is missing (NaN). -/
def D10 : DataFrame := ⟨["cif"], [[("cif", none)]]⟩

/-- A filesystem holding only the underscore-variant file Mat_1.cif. -/
def fsMat1 : String → Bool := fun p => p == "crystal_structure/Mat_1.cif"

/-- A render environment over an empty filesystem. -/
def envNowhere : RenderEnv :=
  ⟨fun _ => false, true, true, fun _ => Except.ok "P", fun _ => Except.ok "F"⟩

/-- A render environment whose primary renderer throws and whose fallback
renderer succeeds, over a filesystem where every path exists. -/
def env8 : RenderEnv :=
  ⟨fun _ => true, true, true, fun _ => Except.error "boom", fun _ => Except.ok "fb"⟩

/-- An app environment where the pymatgen import fails. -/
def envNoPymatgen : AppEnv := ⟨false, none, none, envNowhere, false, 0⟩

/-- An app environment where pymatgen imports, the composition table loads,
the benchmark file is missing, the view button is clicked, and neither the
chosen file nor any renderer works. -/
def envLoaded : AppEnv := ⟨true, some (Except.ok DB), none, envNowhere, true, 0⟩

/-! ## Helper lemmas -/

theorem find?_eq_head?_filter {α : Type} (p : α → Bool) (l : List α) :
    l.find? p = (l.filter p).head? := by
  induction l with
  | nil => rfl
  | cons a l ih =>
      by_cases h : p a = true
      · rw [List.find?_cons_of_pos _ h, List.filter_cons, if_pos h]
        rfl
      · rw [List.find?_cons_of_neg _ (by simpa using h), List.filter_cons, if_neg h, ih]

theorem mask_eq_map (df : DataFrame) :
    get_cif_available_mask df = df.rows.map (specEligible df) := by
  unfold get_cif_available_mask
  cases h : get_cif_col df with
  | none =>
      refine List.map_congr_left (fun r _ => ?_)
      simp [specEligible, h]
  | some col =>
      refine List.map_congr_left (fun r _ => ?_)
      simp [specEligible, h]

theorem filter_zip_map {α β : Type} (g : α → β) (f : α → Bool) (l : List α) :
    ((l.zip (l.map f)).filter (fun p => p.2)).map (fun p => g p.1) =
      (l.filter f).map g := by
  induction l with
  | nil => rfl
  | cons a as ih =>
      simp only [List.map_cons, List.zip_cons_cons, List.filter_cons]
      cases h : f a with
      | true => simpa [h] using ih
      | false => simpa [h] using ih

theorem available_materials_eq (df : DataFrame) (idcol : String)
    (h : get_material_id_column df = some idcol) :
    available_materials df =
      (df.rows.filter (specEligible df)).map (fun r => astype_str (r.getCell idcol)) := by
  simp only [available_materials, h]
  rw [mask_eq_map]
  exact filter_zip_map (fun r => astype_str (r.getCell idcol)) (specEligible df) df.rows

theorem id_detect_none (df : DataFrame)
    (h1 : ∀ a, a ∈ materialIdCandidates → ¬a ∈ df.cols)
    (h2 : ∀ c, c ∈ df.cols →
      (strContains (strLower c) "material" && strContains (strLower c) "id") = false) :
    get_material_id_column df = none := by
  have hf1 : materialIdCandidates.find? (fun c => df.cols.contains c) = none := by
    rw [List.find?_eq_none]
    intro x hx
    simpa using h1 x hx
  have hf2 : df.cols.find?
      (fun c => strContains (strLower c) "material" && strContains (strLower c) "id") = none := by
    rw [List.find?_eq_none]
    intro c hc
    simp [h2 c hc]
  simp only [get_material_id_column, hf1, hf2]

/-! ## Claim theorems -/

/-- C1: for every loaded composition table (with a detected identifier
column), the identifier list offered for visualization is exactly the
identifier values of the rows whose availability value trims and
lower-cases to "yes"; when no availability column is discoverable the
list is empty. -/
theorem c1_offered_exactly_yes_rows (df : DataFrame) :
    (get_cif_col df = none → available_materials df = []) ∧
    (∀ idcol, get_material_id_column df = some idcol →
      available_materials df =
        (df.rows.filter (specEligible df)).map (fun r => astype_str (r.getCell idcol))) := by
  constructor
  · intro hcif
    cases hid : get_material_id_column df with
    | none => simp [available_materials, hid]
    | some idcol =>
        rw [available_materials_eq df idcol hid]
        have hnil : df.rows.filter (specEligible df) = [] := by
          rw [List.filter_eq_nil_iff]
          intro r _
          simp [specEligible, hcif]
        rw [hnil]
        rfl
  · intro idcol hid
    exact available_materials_eq df idcol hid

/-- Witness for C1: on `DA` (no availability column) the offered list is
empty; on `DB` (spec test values Yes / no / " yes " / NaN / "") the offered
list is exactly the identifiers of the two normalized-"yes" rows. -/
theorem c1_offered_exactly_yes_rows_witness :
    available_materials DA = [] ∧ available_materials DB = ["A", "A"] := by
  constructor
  · exact (c1_offered_exactly_yes_rows DA).1 (by decide)
  · have h := (c1_offered_exactly_yes_rows DB).2 "Material-ID" (by decide)
    rw [h]
    decide

/-- C5: with a detected identifier column, the eligible-identifier list has
one entry per eligible row (duplicates preserved) and its i-th entry is the
text-coerced identifier of the i-th eligible row in original table order. -/
theorem c5_order_and_duplicates (df : DataFrame) (idcol : String)
    (h : get_material_id_column df = some idcol) :
    (available_materials df).length = (df.rows.filter (specEligible df)).length ∧
    ∀ i : Nat, (available_materials df)[i]? =
      Option.map (fun r => astype_str (r.getCell idcol)) (df.rows.filter (specEligible df))[i]? := by
  rw [available_materials_eq df idcol h]
  exact ⟨List.length_map _ _, fun i => List.getElem?_map _ _ i⟩

/-- Witness for C5: on `DB` two rows are eligible and the duplicate
identifier "A" appears at both positions, in table order. -/
theorem c5_order_and_duplicates_witness :
    (available_materials DB).length = 2 ∧ (available_materials DB)[1]? = some "A" := by
  have h := c5_order_and_duplicates DB "Material-ID" (by decide)
  constructor
  · rw [h.1]; decide
  · rw [h.2 1]; decide

/-- C2: identifier-column detection agrees with the spec's ordered
alias-then-substring description; an alias column that is the only alias
present is returned, for every alias variant; with no alias present and no
column containing both "material" and "id", detection returns none. -/
theorem c2_id_column_detection (df : DataFrame) :
    (get_material_id_column df = specIdDetect df) ∧
    (∀ a, a ∈ materialIdCandidates → a ∈ df.cols →
      (∀ b, b ∈ materialIdCandidates → b ∈ df.cols → b = a) →
      get_material_id_column df = some a) ∧
    ((∀ a, a ∈ materialIdCandidates → ¬a ∈ df.cols) →
     (∀ c, c ∈ df.cols →
       (strContains (strLower c) "material" && strContains (strLower c) "id") = false) →
     get_material_id_column df = none) := by
  refine ⟨?_, ?_, fun h1 h2 => id_detect_none df h1 h2⟩
  · unfold get_material_id_column specIdDetect
    rw [find?_eq_head?_filter, find?_eq_head?_filter]
  · intro a ha hcol huniq
    unfold get_material_id_column
    cases hf : materialIdCandidates.find? (fun c => df.cols.contains c) with
    | none =>
        rw [List.find?_eq_none] at hf
        exact absurd hcol (by simpa using hf a ha)
    | some c =>
        have hc1 : df.cols.contains c = true := List.find?_some hf
        have hc2 : c ∈ materialIdCandidates := List.mem_of_find?_eq_some hf
        have hca : c = a := huniq c hc2 (by simpa using hc1)
        subst hca
        rfl

/-- Witness for C2: the alias column "material_id", the only alias present,
is detected; a table with no identifier-like column yields none. -/
theorem c2_id_column_detection_witness :
    get_material_id_column ⟨["formula", "material_id"], []⟩ = some "material_id" ∧
    get_material_id_column D9 = none := by
  constructor
  · exact (c2_id_column_detection ⟨["formula", "material_id"], []⟩).2.1 "material_id"
      (by decide) (by decide) (by decide)
  · exact (c2_id_column_detection D9).2.2 (by decide) (by decide)

/-- C3: availability-column detection agrees with the spec's
alias-then-substring description; a column merely containing "cif" inside
an unrelated word is selected by the substring fallback; and when no column
is detected the availability mask is all-false with one entry per row. -/
theorem c3_cif_column_detection (df : DataFrame) :
    (get_cif_col df = specCifDetect df) ∧
    (get_cif_col ⟨["temperature", "Pacific_salinity"], []⟩ = some "Pacific_salinity") ∧
    (get_cif_col df = none →
      get_cif_available_mask df = List.replicate df.rows.length false) := by
  refine ⟨?_, by decide, ?_⟩
  · unfold get_cif_col specCifDetect
    rw [find?_eq_head?_filter, find?_eq_head?_filter]
  · intro h
    simp [get_cif_available_mask, h, List.map_const']

/-- Witness for C3: on `D3`, which has no cif-like column but does hold a
"yes" value, the mask is all-false over its two rows. -/
theorem c3_cif_column_detection_witness :
    get_cif_available_mask D3 = List.replicate 2 false :=
  (c3_cif_column_detection D3).2.2 (by decide)

/-- C9: for a table with no identifier-like column, detection returns none,
the locator emits only the warning, and the eligible list stays empty. -/
theorem c9_no_id_column (df : DataFrame)
    (h1 : ∀ a, a ∈ materialIdCandidates → ¬a ∈ df.cols)
    (h2 : ∀ c, c ∈ df.cols →
      (strContains (strLower c) "material" && strContains (strLower c) "id") = false) :
    get_material_id_column df = none ∧
    locate_section (some df) = ([Msg.warning idNotDetectedMsg], []) ∧
    available_materials df = [] := by
  have hid := id_detect_none df h1 h2
  refine ⟨hid, ?_, ?_⟩
  · simp [locate_section, hid]
  · simp [available_materials, hid]

/-- Witness for C9: the table `D9` (columns Name, Tc) produces the warning
and an empty eligible list. -/
theorem c9_no_id_column_witness :
    locate_section (some D9) = ([Msg.warning idNotDetectedMsg], []) ∧
    available_materials D9 = [] := by
  have h := c9_no_id_column D9 (by decide) (by decide)
  exact ⟨h.2.1, h.2.2⟩

/-- C10: the availability mask always has exactly one entry per row of the
input table (in particular it is total, also on an empty table), and a row
whose availability cell is missing (NaN, stringified to "nan") is never
eligible. -/
theorem c10_mask_total (df : DataFrame) :
    (get_cif_available_mask df).length = df.rows.length ∧
    ∀ i : Nat, ∀ r : Row, df.rows[i]? = some r →
      (∀ col, get_cif_col df = some col → r.getCell col = none) →
      (get_cif_available_mask df)[i]? = some false := by
  constructor
  · rw [mask_eq_map]
    exact List.length_map _ _
  · intro i r hrow hnan
    rw [mask_eq_map, List.getElem?_map, hrow]
    have hfalse : specEligible df r = false := by
      cases hc : get_cif_col df with
      | none => simp [specEligible, hc]
      | some col =>
          simp only [specEligible, hc]
          rw [hnan col hc]
          decide
    simp [hfalse]

/-- Witness for C10: on `D10`, whose single row has a NaN availability cell
in the detected "cif" column, the mask is one entry long and that entry is
false. -/
theorem c10_mask_total_witness :
    (get_cif_available_mask D10).length = 1 ∧
    (get_cif_available_mask D10)[0]? = some false := by
  have h := c10_mask_total D10
  refine ⟨by rw [h.1]; decide, ?_⟩
  refine h.2 0 [("cif", none)] rfl ?_
  intro col hc
  have hcc : get_cif_col D10 = some "cif" := by decide
  rw [hcc] at hc
  injection hc with h2
  subst h2
  rfl

/-- C4: the handler renders at exactly the path the spec's resolution rule
picks — the literal `base_dir/<identifier>.cif` when it exists, else the
space-to-underscore variant when that exists (the banner preceding the
renderer output is at most the found notice) — and when the rule picks
nothing, the handler reports the recoverable not-found message; when only
the underscore variant exists, the rule picks the underscore path. -/
theorem c4_path_resolution (env : RenderEnv) (matid : String) :
    (∀ p, resolvePath env.fsExists matid = some p →
      ∃ pre, (pre = [] ∨ pre = [Msg.success (foundMsg p)]) ∧
        view_structure env matid = pre ++ render_chain env p) ∧
    (resolvePath env.fsExists matid = none →
      view_structure env matid = [Msg.errorMsg (notFoundMsg matid)]) ∧
    (env.fsExists (cifPath matid) = false →
     env.fsExists (cifPath (underscoreSpaces matid)) = true →
     resolvePath env.fsExists matid = some (cifPath (underscoreSpaces matid))) := by
  refine ⟨?_, ?_, ?_⟩
  · intro p hp
    cases h1 : env.fsExists (cifPath matid) with
    | true =>
        have hp' : p = cifPath matid := by
          simp [resolvePath, h1] at hp
          exact hp.symm
        subst hp'
        refine ⟨[Msg.success (foundMsg (cifPath matid))], Or.inr rfl, ?_⟩
        simp [view_structure, h1]
    | false =>
        cases h2 : env.fsExists (cifPath (underscoreSpaces matid)) with
        | true =>
            have hp' : p = cifPath (underscoreSpaces matid) := by
              simp [resolvePath, h1, h2] at hp
              exact hp.symm
            subst hp'
            refine ⟨[], Or.inl rfl, ?_⟩
            simp [view_structure, h1, h2]
        | false =>
            exfalso
            simp [resolvePath, h1, h2] at hp
  · intro hn
    cases h1 : env.fsExists (cifPath matid) with
    | true => exfalso; simp [resolvePath, h1] at hn
    | false =>
        cases h2 : env.fsExists (cifPath (underscoreSpaces matid)) with
        | true => exfalso; simp [resolvePath, h1, h2] at hn
        | false => simp [view_structure, h1, h2]
  · intro h1 h2
    simp [resolvePath, h1, h2]

/-- Witness for C4: identifier "Mat 1" with only Mat_1.cif on disk resolves
to the underscore-substituted path, not the literal-space path. -/
theorem c4_path_resolution_witness :
    resolvePath fsMat1 "Mat 1" = some "crystal_structure/Mat_1.cif" := by
  have h := (c4_path_resolution
      ⟨fsMat1, true, true, fun _ => Except.ok "P", fun _ => Except.ok "F"⟩ "Mat 1").2.2
      (by decide) (by decide)
  exact h.trans (by decide)

/-- C6: for an identifier with no file under either naming convention, the
handler emits only the recoverable not-found message — the same output for
every primary and fallback renderer, so neither renderer is invoked. -/
theorem c6_not_found_no_render (fs : String → Bool) (ctk py : Bool)
    (pr fb : String → Except String String) (matid : String)
    (h1 : fs (cifPath matid) = false)
    (h2 : fs (cifPath (underscoreSpaces matid)) = false) :
    view_structure ⟨fs, ctk, py, pr, fb⟩ matid = [Msg.errorMsg (notFoundMsg matid)] := by
  simp [view_structure, h1, h2]

/-- Witness for C6: over an empty filesystem the handler output for "Q" is
exactly the not-found error. -/
theorem c6_not_found_no_render_witness :
    view_structure envNowhere "Q" = [Msg.errorMsg (notFoundMsg "Q")] :=
  c6_not_found_no_render (fun _ => false) true true (fun _ => Except.ok "P")
    (fun _ => Except.ok "F") "Q" rfl rfl

/-- C7 counterexample: not every failure is converted into a non-fatal
message — when the pymatgen import fails, the guard emits its error message
and then re-raises, so the page run terminates instead of completing. -/
theorem c7_counterexample :
    runApp envNoPymatgen = Except.error [Msg.errorMsg pymatgenRequiredMsg] ∧
    isOkB (runApp envNoPymatgen) = false :=
  ⟨rfl, rfl⟩

/-- C7 amended: with the structure-parsing library importable, every other
failure (missing or malformed dataset file, undetectable column, missing
structure file, renderer errors) is converted into localized messages and
the page run always completes. -/
theorem c7_every_other_failure_caught (env : AppEnv)
    (h : env.pymatgenAvailable = true) :
    isOkB (runApp env) = true := by
  simp [runApp, h, isOkB]

/-- Witness for the amended C7: a run with a loaded table, a missing
benchmark file, a clicked view button and an empty filesystem completes. -/
theorem c7_every_other_failure_caught_witness :
    isOkB (runApp envLoaded) = true :=
  c7_every_other_failure_caught envLoaded rfl

/-- C8: with both renderer libraries importable, the primary renderer's
markup is the whole output when it succeeds; when it throws, the fallback
is tried once on the same file — on success the output is the fallback's
markup preceded only by the informational note, and when both fail the
note is followed by a single error message. -/
theorem c8_two_tier_fallback (env : RenderEnv) (p : String)
    (hctk : env.ctkAvailable = true) (hpy : env.py3dmolAvailable = true) :
    (∀ h, env.primary p = Except.ok h → render_chain env p = [Msg.htmlOut h]) ∧
    (∀ e h, env.primary p = Except.error e → env.fallback p = Except.ok h →
      render_chain env p = [Msg.writeMsg (ctkFailNote e), Msg.htmlOut h]) ∧
    (∀ e e2, env.primary p = Except.error e → env.fallback p = Except.error e2 →
      render_chain env p =
        [Msg.writeMsg (ctkFailNote e), Msg.errorMsg (py3dmolAlsoFailedMsg e2)]) := by
  refine ⟨?_, ?_, ?_⟩
  · intro h hok
    simp [render_chain, hctk, hok]
  · intro e h herr hok
    simp [render_chain, hctk, hpy, herr, hok]
  · intro e e2 herr herr2
    simp [render_chain, hctk, hpy, herr, herr2]

/-- Witness for C8: a throwing primary renderer and a succeeding fallback
yield the fallback markup after the informational note. -/
theorem c8_two_tier_fallback_witness :
    render_chain env8 "p" = [Msg.writeMsg (ctkFailNote "boom"), Msg.htmlOut "fb"] :=
  (c8_two_tier_fallback env8 "p" rfl rfl).2.1 "boom" "fb" rfl rfl

end SAUVW
